import Mathlib

/-!
Shallow embedding of the forum backend (src/main.py) and of the pieces of the
repository that src/ only references: the schemas (schemas.py), the document
store gateway (database.py) and the native-identifier codec (the store's
ObjectId type). Handlers are translated from src/main.py line by line; the
missing modules are modelled from the specification and carry a
`Modelled from the spec:` note in their doc comment.
-/

set_option maxHeartbeats 1000000

/-- A hex digit of the store identifier format. -/
abbrev HexDigit := Fin 16

/-- Modelled from the spec: the native identifier of the document store (a bson
ObjectId; the bson library is not part of src/). Section 4.1 calls for a fixed
length and character set; an ObjectId is 12 bytes, externally 24 hex digits,
which we represent directly as its digit sequence. -/
abbrev OID := { l : List HexDigit // l.length = 24 }

/-- Lower-case hex character of a digit (the format produced by the encoder). -/
def hexChar (d : HexDigit) : Char :=
  if d.val < 10 then Char.ofNat (48 + d.val) else Char.ofNat (87 + d.val)

/-- Hex value of a character; accepts both letter cases, as the store id parser does. -/
def hexVal (c : Char) : Option HexDigit :=
  if h : 48 ≤ c.toNat ∧ c.toNat ≤ 57 then some ⟨c.toNat - 48, by omega⟩
  else if h2 : 97 ≤ c.toNat ∧ c.toNat ≤ 102 then some ⟨c.toNat - 87, by omega⟩
  else if h3 : 65 ≤ c.toNat ∧ c.toNat ≤ 70 then some ⟨c.toNat - 55, by omega⟩
  else none

/-- Decode a character list as hex digits; fails on any non-hex character. -/
def hexDecode : List Char → Option (List HexDigit)
  | [] => some []
  | c :: cs =>
    match hexVal c, hexDecode cs with
    | some d, some ds => some (d :: ds)
    | _, _ => none

/-- Modelled from the spec: encode of the Identifier Codec (section 4.1) — the
external string form of a native id, `str(ObjectId)` in the source. -/
def encodeId (o : OID) : String := String.mk (o.val.map hexChar)

/-- Modelled from the spec: decode of the Identifier Codec (section 4.1),
`ObjectId(string)` in the source. `none` models the InvalidIdentifier failure
(bson raises InvalidId) when the string has the wrong length or character set
for the store id format. -/
def decodeId (s : String) : Option OID :=
  match hexDecode s.data with
  | none => none
  | some ds => if h : ds.length = 24 then some ⟨ds, h⟩ else none

/-- A string is a well-formed native-identifier representation: 24 characters,
each a hex digit (section 4.1: wrong length or character set is malformed). -/
def wellFormedId (s : String) : Bool :=
  s.data.length == 24 && s.data.all fun c => (hexVal c).isSome

/-- A stored field value: the document store is schema-flexible; the values this
system ever stores are nulls, strings, native ids and string lists. -/
inductive Value where
  | null
  | str (s : String)
  | oid (o : OID)
  | strList (l : List String)
  deriving DecidableEq

/-- A stored document: an ordered association of field names to values, as the
store's native document encoding (a Python dict in the source). -/
abbrev Doc := List (String × Value)

/-- Dictionary lookup, `doc.get(k)` in the source: `none` when the key is absent. -/
def getv (d : Doc) (k : String) : Option Value :=
  (d.find? fun kv => kv.1 == k).map fun kv => kv.2

/-- Dictionary update, `doc[k] = v` in the source: replaces the binding when the
key is present, appends it otherwise. -/
def setv (d : Doc) (k : String) (v : Value) : Doc :=
  if d.any fun kv => kv.1 == k then
    d.map fun kv => if kv.1 == k then (k, v) else kv
  else d ++ [(k, v)]

/-- Python `str()` as applied by the source to a `doc.get(...)` result: `None`
prints as "None", a native id prints as its hex encoding, a string is itself. -/
def pyStr : Option Value → String
  | none => "None"
  | some Value.null => "None"
  | some (Value.str s) => s
  | some (Value.oid o) => encodeId o
  | some (Value.strList l) =>
      "[" ++ String.intercalate ", " (l.map fun s =>
        (Char.ofNat 39).toString ++ s ++ (Char.ofNat 39).toString) ++ "]"

/-- External output shape of a Thread (class ThreadOut, src/main.py lines 27-33). -/
structure ThreadOut where
  id : String
  title : String
  author : String
  content : String
  category : Option String
  tags : Option (List String)
  deriving DecidableEq

/-- External output shape of a Post (class PostOut, src/main.py lines 35-39). -/
structure PostOut where
  id : String
  thread_id : String
  author : String
  content : String
  deriving DecidableEq

/-- Pydantic validation of a required string field: the stored value must be a
string; absence or any other type is rejected. -/
def asStr : Option Value → Option String
  | some (Value.str s) => some s
  | _ => none

/-- Pydantic validation of an optional string field: absence and null become
`none`; a string is kept; any other type is rejected. -/
def asOptStr : Option Value → Option (Option String)
  | none => some none
  | some Value.null => some none
  | some (Value.str s) => some (some s)
  | _ => none

/-- Pydantic validation of an optional string-list field. -/
def asOptStrList : Option Value → Option (Option (List String))
  | none => some none
  | some Value.null => some none
  | some (Value.strList l) => some (some l)
  | _ => none

/-- to_thread_out (src/main.py lines 89-97): builds a ThreadOut from a stored
document. `none` models the pydantic ValidationError raised when a required
field is absent or has the wrong type. -/
def to_thread_out (doc : Doc) : Option ThreadOut := do
  let title ← asStr (getv doc "title")
  let author ← asStr (getv doc "author")
  let content ← asStr (getv doc "content")
  let category ← asOptStr (getv doc "category")
  let tags ← asOptStrList (getv doc "tags")
  pure { id := pyStr (getv doc "_id"), title := title, author := author,
         content := content, category := category, tags := tags }

/-- to_post_out (src/main.py lines 100-106). The id and thread_id fields go
through Python str() and never fail; author and content are validated strings. -/
def to_post_out (doc : Doc) : Option PostOut := do
  let author ← asStr (getv doc "author")
  let content ← asStr (getv doc "content")
  pure { id := pyStr (getv doc "_id"), thread_id := pyStr (getv doc "thread_id"),
         author := author, content := content }

/-- Modelled from the spec: the Thread schema (schemas.py is not in src/);
section 3 gives title, author, content required strings and category, tags
optional. ThreadCreate in src/main.py line 21 is this schema unchanged. -/
structure ThreadCreate where
  title : String
  author : String
  content : String
  category : Option String
  tags : Option (List String)
  deriving DecidableEq

/-- Modelled from the spec: the Post schema (schemas.py is not in src/);
section 3 gives thread_id, author, content required strings. PostCreate in
src/main.py line 24 is this schema unchanged. -/
structure PostCreate where
  thread_id : String
  author : String
  content : String
  deriving DecidableEq

/-- Value stored for an optional string field by a pydantic dump: None becomes null. -/
def optStrVal : Option String → Value
  | none => Value.null
  | some s => Value.str s

/-- Value stored for an optional string-list field by a pydantic dump. -/
def optStrListVal : Option (List String) → Value
  | none => Value.null
  | some l => Value.strList l

/-- payload.model_dump() for a Thread payload, fields in declaration order. -/
def ThreadCreate.model_dump (t : ThreadCreate) : Doc :=
  [("title", Value.str t.title), ("author", Value.str t.author),
   ("content", Value.str t.content), ("category", optStrVal t.category),
   ("tags", optStrListVal t.tags)]

/-- payload.model_dump() for a Post payload (src/main.py line 147). -/
def PostCreate.model_dump (p : PostCreate) : Doc :=
  [("thread_id", Value.str p.thread_id), ("author", Value.str p.author),
   ("content", Value.str p.content)]

/-- The connected document store: one list of documents per logical collection,
in insertion order. -/
structure DB where
  thread : List Doc
  post : List Doc
  deriving DecidableEq

/-- The list of documents of a named collection. -/
def collOf (s : DB) : String → List Doc
  | "thread" => s.thread
  | "post" => s.post
  | _ => []

/-- A find-filter condition on one field: exact equality, or the `$regex` with
`$options "i"` condition the source builds for title search. -/
inductive Cond where
  | eqv (v : Value)
  | regexI (pattern : String)
  deriving DecidableEq

/-- A filter: field conditions combined by conjunction (a Mongo filter dict). -/
abbrev QueryFilter := List (String × Cond)

/-- Unanchored containment of one character list in another. -/
def listContainsAux (needle : List Char) : List Char → Bool
  | [] => needle.isEmpty
  | c :: rest => needle.isPrefixOf (c :: rest) || listContainsAux needle rest

/-- The character list of a string, lower-cased (the effect of a
case-insensitive comparison). -/
def lowerChars (s : String) : List Char := s.data.map Char.toLower

/-- Case-insensitive unanchored substring test between strings. -/
def containsCI (hay pat : String) : Bool :=
  listContainsAux (lowerChars pat) (lowerChars hay)

/-- Modelled from the spec: the store's semantics of one filter condition
(section 4.3; the store itself is an external collaborator). Equality is exact;
the case-insensitive regex condition is evaluated as an unanchored
case-insensitive containment test, treating the pattern literally — the source
passes the raw q fragment, and section 4.3 calls it a substring match. -/
def condMatches (d : Doc) (field : String) : Cond → Bool
  | Cond.eqv v => getv d field == some v
  | Cond.regexI pat =>
    match getv d field with
    | some (Value.str s) => containsCI s pat
    | _ => false

/-- Modelled from the spec: a document matches a filter when it matches every
condition (clauses combine with logical AND, section 4.3). -/
def docMatches (f : QueryFilter) (d : Doc) : Bool :=
  f.all fun kc => condMatches d kc.1 kc.2

/-- Python truthiness of an optional string (`if q:` in the source): false for
None and for the empty string. -/
def truthy : Option String → Bool
  | none => false
  | some s => !s.isEmpty

/-- An error escaping a handler: an explicit HTTPException from src/main.py, or
one of the unhandled exceptions the handlers can let through. -/
inductive HandlerError where
  | httpError (status : Nat) (detail : String)
  | invalidId
  | validationError
  | storeUnavailable
  deriving DecidableEq

/-- The HTTP status a handler failure maps to at the boundary: an HTTPException
carries its own status; the framework maps any unhandled exception (a bson
InvalidId, a pydantic ValidationError) to 500, and the gateway's
StoreUnavailable surfaces as 500 per section 6. -/
def statusOf : HandlerError → Nat
  | HandlerError.httpError st _ => st
  | HandlerError.invalidId => 500
  | HandlerError.validationError => 500
  | HandlerError.storeUnavailable => 500

/-- The limit the gateway hands to the store for a find: a non-positive caller
value is clamped to a minimum of 1 (section 4.2). -/
def gateway_limit (limit : Int) : Int := max limit 1

/-- Modelled from the spec: the store executing a find (section 4.2) — up to
`limit` documents of the collection matching the filter, in insertion order. -/
def store_find (s : DB) (collection : String) (f : QueryFilter) (limit : Int) : List Doc :=
  ((collOf s collection).filter (docMatches f)).take limit.toNat

/-- Modelled from the spec: get_documents of database.py (not in src/), the
gateway find of section 4.2. Fails with StoreUnavailable when no connection is
held; otherwise queries the store with the clamped limit. -/
def get_documents (collection : String) (f : QueryFilter) (limit : Int)
    (dbOpt : Option DB) : Except HandlerError (List Doc) :=
  match dbOpt with
  | none => Except.error HandlerError.storeUnavailable
  | some s => Except.ok (store_find s collection f (gateway_limit limit))

/-- Modelled from the spec: create_document of database.py (not in src/), the
gateway create of section 4.2. The store-assigned native id is passed in
explicitly as `fresh`; the document is the payload with `_id` set to it, and
the returned value is the id string the handlers place in their responses. -/
def create_document (collection : String) (payload : Doc) (fresh : OID)
    (s : DB) : String × DB :=
  let doc : Doc := ("_id", Value.oid fresh) :: payload
  (encodeId fresh,
    match collection with
    | "thread" => { s with thread := s.thread ++ [doc] }
    | "post" => { s with post := s.post ++ [doc] }
    | _ => s)

/-- find_one on the thread collection keyed by native id
(`db["thread"].find_one(...)`, src/main.py lines 131 and 142). -/
def findThreadById (s : DB) (o : OID) : Option Doc :=
  s.thread.find? fun d => getv d "_id" == some (Value.oid o)

/-- create_thread (src/main.py lines 110-113): persists the payload and answers
its id string. -/
def create_thread (payload : ThreadCreate) (fresh : OID) (s : DB) : String × DB :=
  create_document "thread" payload.model_dump fresh s

/-- The filter dict list_threads builds (src/main.py lines 118-122): a title
regex clause when q is truthy, a category equality clause when category is
truthy, nothing otherwise. -/
def list_threads_filter (q category : Option String) : QueryFilter :=
  let fd : QueryFilter := []
  let fd := if truthy q then fd ++ [("title", Cond.regexI (q.getD ""))] else fd
  let fd := if truthy category then
    fd ++ [("category", Cond.eqv (Value.str (category.getD "")))] else fd
  fd

/-- list_threads (src/main.py lines 116-124): builds the filter, queries the
gateway, maps each document through to_thread_out. -/
def list_threads (dbOpt : Option DB) (limit : Int) (q category : Option String) :
    Except HandlerError (List ThreadOut) :=
  match get_documents "thread" (list_threads_filter q category) limit dbOpt with
  | Except.error e => Except.error e
  | Except.ok docs =>
    match docs.mapM to_thread_out with
    | some ts => Except.ok ts
    | none => Except.error HandlerError.validationError

/-- get_thread (src/main.py lines 127-134): 500 when the store handle is None;
an unhandled InvalidId when the path id is malformed; 404 when no thread has
the decoded id; otherwise the thread mapped to its output shape. -/
def get_thread (dbOpt : Option DB) (thread_id : String) :
    Except HandlerError ThreadOut :=
  match dbOpt with
  | none => Except.error (HandlerError.httpError 500 "Database not available")
  | some s =>
    match decodeId thread_id with
    | none => Except.error HandlerError.invalidId
    | some o =>
      match findThreadById s o with
      | none => Except.error (HandlerError.httpError 404 "Thread not found")
      | some doc =>
        match to_thread_out doc with
        | some t => Except.ok t
        | none => Except.error HandlerError.validationError

/-- create_post (src/main.py lines 137-150): 500 when the store handle is None;
an unhandled InvalidId when the path id is malformed; 404 when the parent
thread does not exist; otherwise dumps the payload, overwrites its thread_id
with the path string, persists it and answers the new id string. The second
component is the store after the call. -/
def create_post (dbOpt : Option DB) (thread_id : String) (payload : PostCreate)
    (fresh : OID) : Except HandlerError String × Option DB :=
  match dbOpt with
  | none => (Except.error (HandlerError.httpError 500 "Database not available"), none)
  | some s =>
    match decodeId thread_id with
    | none => (Except.error HandlerError.invalidId, some s)
    | some o =>
      match findThreadById s o with
      | none => (Except.error (HandlerError.httpError 404 "Thread not found"), some s)
      | some _ =>
        let post_data := setv payload.model_dump "thread_id" (Value.str thread_id)
        let res := create_document "post" post_data fresh s
        (Except.ok res.1, some res.2)

/-- The filter dict list_posts builds (src/main.py line 155): exactly one exact
equality clause on thread_id, carrying the raw path string. -/
def list_posts_filter (thread_id : String) : QueryFilter :=
  [("thread_id", Cond.eqv (Value.str thread_id))]

/-- list_posts (src/main.py lines 153-156). -/
def list_posts (dbOpt : Option DB) (thread_id : String) (limit : Int) :
    Except HandlerError (List PostOut) :=
  match get_documents "post" (list_posts_filter thread_id) limit dbOpt with
  | Except.error e => Except.error e
  | Except.ok docs =>
    match docs.mapM to_post_out with
    | some ps => Except.ok ps
    | none => Except.error HandlerError.validationError

deriving instance DecidableEq for Except

/-- Whether a stored value is in the store's native identifier representation. -/
def Value.isNativeId : Value → Bool
  | Value.oid _ => true
  | _ => false

/-- A concrete native id, all-zero digits. -/
def oidA : OID := ⟨List.replicate 24 0, by simp⟩

/-- A second concrete native id, all-one digits. -/
def oidB : OID := ⟨List.replicate 24 1, by simp⟩

/-- The string encoding of oidA. -/
def tidA : String := "000000000000000000000000"

/-- A concrete Post payload whose body carries a thread_id different from any path. -/
def pA : PostCreate := ⟨"bodySuppliedDifferentId", "bob", "welcome"⟩

/-- A concrete stored Thread document with id oidA. -/
def threadDocA : Doc :=
  [("_id", Value.oid oidA), ("title", Value.str "Intro"),
   ("author", Value.str "alice"), ("content", Value.str "hi"),
   ("category", Value.str "general"), ("tags", Value.null)]

/-- A store holding the one thread threadDocA and no posts. -/
def dbA : DB := ⟨[threadDocA], []⟩

/-- The post document create_post persists for payload pA at path id tidA. -/
def postDocA : Doc :=
  [("_id", Value.oid oidB), ("thread_id", Value.str tidA),
   ("author", Value.str "bob"), ("content", Value.str "welcome")]

/-- The store dbA after that post creation. -/
def dbA2 : DB := ⟨[threadDocA], [postDocA]⟩

/-- Decoding undoes encoding on each hex digit. -/
theorem hexVal_hexChar : ∀ d : HexDigit, hexVal (hexChar d) = some d := by decide

/-- hexDecode undoes the character-wise hex encoding. -/
theorem hexDecode_map_hexChar (l : List HexDigit) :
    hexDecode (l.map hexChar) = some l := by
  induction l with
  | nil => rfl
  | cons d ds ih => simp [hexDecode, hexVal_hexChar d, ih]

/-- A successful hexDecode means every character was a hex digit and the digit
count equals the character count. -/
theorem hexDecode_sound : ∀ cs ds, hexDecode cs = some ds →
    ds.length = cs.length ∧ cs.all (fun c => (hexVal c).isSome) = true := by
  intro cs
  induction cs with
  | nil =>
    intro ds h
    simp only [hexDecode, Option.some.injEq] at h
    subst h
    simp
  | cons c cs ih =>
    intro ds h
    simp only [hexDecode] at h
    cases hv : hexVal c with
    | none => rw [hv] at h; cases hd : hexDecode cs <;> rw [hd] at h <;> simp at h
    | some d =>
      rw [hv] at h
      cases hd : hexDecode cs with
      | none => rw [hd] at h; simp at h
      | some ds2 =>
        rw [hd] at h
        simp only [Option.some.injEq] at h
        subst h
        obtain ⟨h1, h2⟩ := ih ds2 hd
        refine ⟨by simp [h1], ?_⟩
        simp only [List.all_cons, Bool.and_eq_true]
        exact ⟨by rw [hv]; rfl, h2⟩

/-- C4: encoding a native identifier and decoding the result yields the
original identifier, and decoding any string that is not a well-formed
native-identifier representation (wrong length or character set) fails, the
failure the boundary reports as InvalidIdentifier. -/
theorem idCodec_roundtrip_and_rejects_malformed :
    (∀ o : OID, decodeId (encodeId o) = some o) ∧
    (∀ s : String, wellFormedId s = false → decodeId s = none) := by
  constructor
  · intro o
    unfold decodeId encodeId
    rw [show (String.mk (o.val.map hexChar)).data = o.val.map hexChar from rfl]
    rw [hexDecode_map_hexChar]
    simp [o.property]
  · intro s hw
    cases hd : decodeId s with
    | some o =>
      exfalso
      unfold decodeId at hd
      split at hd
      · exact Option.noConfusion hd
      · rename_i ds hx
        split at hd
        · rename_i hl
          obtain ⟨h1, h2⟩ := hexDecode_sound s.data ds hx
          unfold wellFormedId at hw
          rw [h2, Bool.and_true] at hw
          simp only [beq_eq_false_iff_ne, ne_eq] at hw
          omega
        · exact Option.noConfusion hd
    | none => rfl

/-- Witness for C4 at concrete inputs: the all-zero id round-trips, and the
malformed string of the specification scenario is rejected. -/
theorem idCodec_roundtrip_and_rejects_malformed_witness :
    decodeId (encodeId oidA) = some oidA ∧ decodeId "doesnotexist" = none :=
  ⟨idCodec_roundtrip_and_rejects_malformed.1 oidA,
   idCodec_roundtrip_and_rejects_malformed.2 "doesnotexist" (by decide)⟩

/-- Unanchored containment holds exactly when the needle occurs contiguously
somewhere in the haystack. -/
theorem listContainsAux_iff (n : List Char) :
    ∀ h, listContainsAux n h = true ↔ ∃ l r, h = l ++ n ++ r := by
  intro h
  induction h with
  | nil =>
    simp only [listContainsAux, List.isEmpty_iff]
    constructor
    · intro hn
      exact ⟨[], [], by simp [hn]⟩
    · rintro ⟨l, r, hh⟩
      rcases List.append_eq_nil.mp ((List.append_eq_nil.mp hh.symm).1) with ⟨-, h2⟩
      exact h2
  | cons c rest ih =>
    simp only [listContainsAux, Bool.or_eq_true, List.isPrefixOf_iff_prefix, ih]
    constructor
    · rintro (hp | ⟨l, r, rfl⟩)
      · obtain ⟨t, ht⟩ := hp
        exact ⟨[], t, by simp [← ht]⟩
      · exact ⟨c :: l, r, by simp⟩
    · rintro ⟨l, r, hl⟩
      cases l with
      | nil =>
        left
        exact ⟨r, by simpa using hl.symm⟩
      | cons a l2 =>
        right
        rw [List.cons_append, List.cons_append] at hl
        injection hl with h1 h2
        exact ⟨l2, r, h2⟩

/-- C3: the thread-listing filter is built from the two optional inputs — empty
when both are absent (matching every document), one case-insensitive unanchored
substring clause on title when q is present, one exact equality clause on
category when category is present, present clauses conjoined — and the
post-listing filter is exactly one exact equality clause on thread_id. -/
theorem query_builder_filters (q c tid : String) (d : Doc) (title : String)
    (hq : q ≠ "") (hc : c ≠ "") (htitle : getv d "title" = some (Value.str title)) :
    list_threads_filter none none = [] ∧
    docMatches [] d = true ∧
    list_threads_filter (some q) none = [("title", Cond.regexI q)] ∧
    list_threads_filter none (some c) = [("category", Cond.eqv (Value.str c))] ∧
    list_threads_filter (some q) (some c) =
      [("title", Cond.regexI q), ("category", Cond.eqv (Value.str c))] ∧
    docMatches (list_threads_filter (some q) (some c)) d =
      (containsCI title q && (getv d "category" == some (Value.str c))) ∧
    (containsCI title q = true ↔ ∃ l r, lowerChars title = l ++ lowerChars q ++ r) ∧
    list_posts_filter tid = [("thread_id", Cond.eqv (Value.str tid))] ∧
    docMatches (list_posts_filter tid) d = (getv d "thread_id" == some (Value.str tid)) := by
  have hqE : q.isEmpty = false := by
    rw [Bool.eq_false_iff]
    intro h
    exact hq ((String.isEmpty_iff q).mp h)
  have hcE : c.isEmpty = false := by
    rw [Bool.eq_false_iff]
    intro h
    exact hc ((String.isEmpty_iff c).mp h)
  have hqt : truthy (some q) = true := by simp [truthy, hqE]
  have hct : truthy (some c) = true := by simp [truthy, hcE]
  refine ⟨rfl, rfl, ?_, ?_, ?_, ?_, ?_, rfl, ?_⟩
  · simp [list_threads_filter, truthy, hqE]
  · simp [list_threads_filter, truthy, hcE]
  · simp [list_threads_filter, truthy, hqE, hcE]
  · simp [list_threads_filter, truthy, hqE, hcE, docMatches, condMatches, htitle]
  · exact listContainsAux_iff (lowerChars q) (lowerChars title)
  · simp [list_posts_filter, docMatches, condMatches]

/-- Witness for C3 at concrete inputs: a nonempty q and category and the
concrete stored thread document of the fixtures. -/
theorem query_builder_filters_witness :
    list_threads_filter none none = [] ∧
    docMatches [] threadDocA = true ∧
    list_threads_filter (some "intro") none = [("title", Cond.regexI "intro")] ∧
    list_threads_filter none (some "general") =
      [("category", Cond.eqv (Value.str "general"))] ∧
    list_threads_filter (some "intro") (some "general") =
      [("title", Cond.regexI "intro"), ("category", Cond.eqv (Value.str "general"))] ∧
    docMatches (list_threads_filter (some "intro") (some "general")) threadDocA =
      (containsCI "Intro" "intro" &&
        (getv threadDocA "category" == some (Value.str "general"))) ∧
    (containsCI "Intro" "intro" = true ↔
      ∃ l r, lowerChars "Intro" = l ++ lowerChars "intro" ++ r) ∧
    list_posts_filter tidA = [("thread_id", Cond.eqv (Value.str tidA))] ∧
    docMatches (list_posts_filter tidA) threadDocA =
      (getv threadDocA "thread_id" == some (Value.str tidA)) :=
  query_builder_filters "intro" "general" tidA threadDocA "Intro"
    (by decide) (by decide) (by decide)

/-- C10: an empty-string q or category is treated exactly as an absent input —
it contributes no clause, and the whole listing result is the same as with the
input omitted. -/
theorem empty_string_input_same_as_absent (dbOpt : Option DB) (limit : Int)
    (q category : Option String) :
    list_threads_filter (some "") category = list_threads_filter none category ∧
    list_threads_filter q (some "") = list_threads_filter q none ∧
    list_threads dbOpt limit (some "") category = list_threads dbOpt limit none category ∧
    list_threads dbOpt limit q (some "") = list_threads dbOpt limit q none :=
  ⟨rfl, rfl, rfl, rfl⟩

/-- C9: every find executed against the store receives a positive limit: the
gateway clamps the caller-supplied limit to a minimum of 1 before querying, and
hands the store that clamped value. -/
theorem find_limit_positive (limit : Int) (collection : String) (f : QueryFilter)
    (dbOpt : Option DB) (s : DB) :
    0 < gateway_limit limit ∧
    get_documents collection f limit dbOpt =
      (match dbOpt with
       | none => Except.error HandlerError.storeUnavailable
       | some st => Except.ok (store_find st collection f (gateway_limit limit))) ∧
    (store_find s collection f (gateway_limit limit)).length ≤ (gateway_limit limit).toNat := by
  refine ⟨lt_of_lt_of_le zero_lt_one (le_max_right limit 1), ?_, ?_⟩
  · cases dbOpt <;> rfl
  · exact List.length_take_le _ _

/-- C1: whenever create_post succeeds (so the path identifier decoded to an
existing thread), the one Post document appended to the post collection carries
thread_id equal to the path-supplied identifier, whatever thread_id the payload
body carried. -/
theorem create_post_persists_path_thread_id (s : DB) (tid : String) (p : PostCreate)
    (fresh : OID) (r : String) (d2 : DB)
    (h : create_post (some s) tid p fresh = (Except.ok r, some d2)) :
    d2.post = s.post ++
      [("_id", Value.oid fresh) :: setv p.model_dump "thread_id" (Value.str tid)] ∧
    getv (("_id", Value.oid fresh) :: setv p.model_dump "thread_id" (Value.str tid))
      "thread_id" = some (Value.str tid) := by
  refine ⟨?_, rfl⟩
  simp only [create_post] at h
  split at h
  · exact absurd (congrArg Prod.fst h) (by simp)
  · split at h
    · exact absurd (congrArg Prod.fst h) (by simp)
    · have h2 := congrArg Prod.snd h
      simp only [Option.some.injEq] at h2
      rw [← h2]
      rfl

/-- Witness for C1: the concrete creation of the fixtures, whose payload body
carries a different thread_id than the path; the persisted document holds the
path identifier. -/
theorem create_post_persists_path_thread_id_witness :
    dbA2.post = dbA.post ++
      [("_id", Value.oid oidB) :: setv pA.model_dump "thread_id" (Value.str tidA)] ∧
    getv (("_id", Value.oid oidB) :: setv pA.model_dump "thread_id" (Value.str tidA))
      "thread_id" = some (Value.str tidA) :=
  create_post_persists_path_thread_id dbA tidA pA oidB (encodeId oidB) dbA2 (by decide)

/-- C2 counterexample: at the path identifier "doesnotexist" of the
specification scenario, create_post does not fail with the 404-mapped
ParentNotFound error — decoding raises an uncaught InvalidIdentifier, which the
boundary maps to 500. No Post is created. -/
theorem create_post_doesnotexist_cex :
    (create_post (some dbA) "doesnotexist" pA oidB).1 =
      Except.error HandlerError.invalidId ∧
    (create_post (some dbA) "doesnotexist" pA oidB).1 ≠
      Except.error (HandlerError.httpError 404 "Thread not found") ∧
    statusOf HandlerError.invalidId = 500 ∧
    (create_post (some dbA) "doesnotexist" pA oidB).2 = some dbA :=
  ⟨by decide, by decide, rfl, by decide⟩

/-- C2 amended: when the path identifier is well formed but no Thread has it,
create_post fails with the 404-mapped ParentNotFound error and creates no Post;
when the path identifier is malformed, it instead fails with an unhandled
InvalidIdentifier mapped to 500, and still creates no Post. -/
theorem create_post_absent_parent (s : DB) (tid : String) (p : PostCreate)
    (fresh : OID)
    (habs : ∀ o, decodeId tid = some o → findThreadById s o = none) :
    (create_post (some s) tid p fresh).2 = some s ∧
    ((decodeId tid = none ∧
        (create_post (some s) tid p fresh).1 = Except.error HandlerError.invalidId ∧
        statusOf HandlerError.invalidId = 500) ∨
     (∃ o, decodeId tid = some o ∧
        (create_post (some s) tid p fresh).1 =
          Except.error (HandlerError.httpError 404 "Thread not found") ∧
        statusOf (HandlerError.httpError 404 "Thread not found") = 404)) := by
  cases hdec : decodeId tid with
  | none =>
    refine ⟨?_, Or.inl ⟨rfl, ?_, rfl⟩⟩ <;> simp [create_post, hdec]
  | some o =>
    have hf : findThreadById s o = none := habs o hdec
    refine ⟨?_, Or.inr ⟨o, rfl, ?_, rfl⟩⟩ <;> simp [create_post, hdec, hf]

/-- Witness for C2 amended, at a well-formed identifier no thread carries: the
all-one id against the fixture store holding only the all-zero thread. -/
theorem create_post_absent_parent_witness :
    (create_post (some dbA) (encodeId oidB) pA oidB).2 = some dbA ∧
    ((decodeId (encodeId oidB) = none ∧
        (create_post (some dbA) (encodeId oidB) pA oidB).1 =
          Except.error HandlerError.invalidId ∧
        statusOf HandlerError.invalidId = 500) ∨
     (∃ o, decodeId (encodeId oidB) = some o ∧
        (create_post (some dbA) (encodeId oidB) pA oidB).1 =
          Except.error (HandlerError.httpError 404 "Thread not found") ∧
        statusOf (HandlerError.httpError 404 "Thread not found") = 404)) :=
  create_post_absent_parent dbA (encodeId oidB) pA oidB
    (by intro o ho; rw [show decodeId (encodeId oidB) = some oidB by decide] at ho;
        cases ho; decide)

/-- C7: create_post never partially commits — on any failure (store handle
absent, malformed identifier, parent thread absent) the store is exactly what
it was, and a Post document is appended only when the parent existence check
has succeeded. -/
theorem create_post_no_partial_commit (dbOpt : Option DB) (tid : String)
    (p : PostCreate) (fresh : OID) :
    (∀ e, (create_post dbOpt tid p fresh).1 = Except.error e →
       (create_post dbOpt tid p fresh).2 = dbOpt) ∧
    (∀ r d2, create_post dbOpt tid p fresh = (Except.ok r, some d2) →
       ∃ s o thr, dbOpt = some s ∧ decodeId tid = some o ∧
         findThreadById s o = some thr ∧ d2.thread = s.thread ∧
         d2.post = s.post ++
           [("_id", Value.oid fresh) :: setv p.model_dump "thread_id" (Value.str tid)]) := by
  cases dbOpt with
  | none =>
    refine ⟨fun e _ => rfl, fun r d2 h => absurd (congrArg Prod.snd h) (by simp [create_post])⟩
  | some s =>
    cases hdec : decodeId tid with
    | none =>
      refine ⟨fun e _ => by simp [create_post, hdec],
              fun r d2 h => ?_⟩
      rw [show create_post (some s) tid p fresh =
        (Except.error HandlerError.invalidId, some s) by simp [create_post, hdec]] at h
      exact absurd (congrArg Prod.fst h) (by simp)
    | some o =>
      cases hf : findThreadById s o with
      | none =>
        refine ⟨fun e _ => by simp [create_post, hdec, hf],
                fun r d2 h => ?_⟩
        rw [show create_post (some s) tid p fresh =
          (Except.error (HandlerError.httpError 404 "Thread not found"), some s)
          by simp [create_post, hdec, hf]] at h
        exact absurd (congrArg Prod.fst h) (by simp)
      | some thr =>
        have hcp : create_post (some s) tid p fresh =
            (Except.ok (encodeId fresh),
             some ⟨s.thread,
               s.post ++ [("_id", Value.oid fresh) ::
                 setv p.model_dump "thread_id" (Value.str tid)]⟩) := by
          simp [create_post, hdec, hf, create_document]
        refine ⟨fun e he => ?_, fun r d2 h => ?_⟩
        · rw [hcp] at he
          exact absurd he (by simp)
        · rw [hcp] at h
          have h2 := congrArg Prod.snd h
          simp only [Option.some.injEq] at h2
          exact ⟨s, o, thr, rfl, rfl, hf, by rw [← h2], by rw [← h2]⟩

/-- Witness for C7: the failing concrete creation at the malformed identifier
leaves the store untouched. -/
theorem create_post_no_partial_commit_witness :
    (create_post (some dbA) "doesnotexist" pA oidB).2 = some dbA :=
  (create_post_no_partial_commit (some dbA) "doesnotexist" pA oidB).1
    HandlerError.invalidId (by decide)

/-- C5 counterexample: in the concrete creation of the fixtures, the thread_id
field persisted on the new Post holds the string-encoded path identifier, not a
value in the store's native identifier representation. -/
theorem persisted_thread_id_not_native_cex :
    (create_post (some dbA) tidA pA oidB).2 = some dbA2 ∧
    dbA2.post = [postDocA] ∧
    getv postDocA "thread_id" = some (Value.str tidA) ∧
    Value.isNativeId (Value.str tidA) = false :=
  ⟨by decide, rfl, by decide, rfl⟩

/-- C5 amended: the store-assigned document identifier _id of a created Post is
native, and the identifier placed in the response body is string-encoded, but
the thread_id stamped onto the Post is persisted in its string-encoded
(path-supplied) form rather than in native representation. -/
theorem persisted_id_forms (s : DB) (tid : String) (p : PostCreate)
    (fresh : OID) (r : String) (d2 : DB)
    (h : create_post (some s) tid p fresh = (Except.ok r, some d2)) :
    getv (("_id", Value.oid fresh) :: setv p.model_dump "thread_id" (Value.str tid))
      "_id" = some (Value.oid fresh) ∧
    Value.isNativeId (Value.oid fresh) = true ∧
    getv (("_id", Value.oid fresh) :: setv p.model_dump "thread_id" (Value.str tid))
      "thread_id" = some (Value.str tid) ∧
    Value.isNativeId (Value.str tid) = false ∧
    r = encodeId fresh := by
  refine ⟨rfl, rfl, rfl, rfl, ?_⟩
  simp only [create_post] at h
  split at h
  · exact absurd (congrArg Prod.fst h) (by simp)
  · split at h
    · exact absurd (congrArg Prod.fst h) (by simp)
    · have h1 := congrArg Prod.fst h
      simp only [Except.ok.injEq] at h1
      exact h1.symm

/-- Witness for C5 amended at the concrete fixture creation. -/
theorem persisted_id_forms_witness :
    getv (("_id", Value.oid oidB) :: setv pA.model_dump "thread_id" (Value.str tidA))
      "_id" = some (Value.oid oidB) ∧
    Value.isNativeId (Value.oid oidB) = true ∧
    getv (("_id", Value.oid oidB) :: setv pA.model_dump "thread_id" (Value.str tidA))
      "thread_id" = some (Value.str tidA) ∧
    Value.isNativeId (Value.str tidA) = false ∧
    encodeId oidB = encodeId oidB :=
  persisted_id_forms dbA tidA pA oidB (encodeId oidB) dbA2 (by decide)

/-- C6 counterexample: a malformed path identifier on GET thread does not yield
404 — the uncaught InvalidIdentifier maps to 500. -/
theorem get_thread_malformed_cex :
    get_thread (some dbA) "zz" = Except.error HandlerError.invalidId ∧
    statusOf HandlerError.invalidId = 500 ∧
    statusOf HandlerError.invalidId ≠ 404 :=
  ⟨by decide, rfl, by decide⟩

/-- C6 amended: on GET thread, an unavailable store yields 500; a malformed
path identifier yields an unhandled InvalidIdentifier mapped to 500 (not 404);
a well-formed identifier held by no Thread yields 404; an identifier decoding
to an existing Thread yields that Thread in the external output shape. -/
theorem get_thread_error_mapping (s : DB) (tid : String) :
    get_thread none tid =
      Except.error (HandlerError.httpError 500 "Database not available") ∧
    (decodeId tid = none →
      get_thread (some s) tid = Except.error HandlerError.invalidId ∧
      statusOf HandlerError.invalidId = 500) ∧
    (∀ o, decodeId tid = some o → findThreadById s o = none →
      get_thread (some s) tid =
        Except.error (HandlerError.httpError 404 "Thread not found")) ∧
    (∀ o doc t, decodeId tid = some o → findThreadById s o = some doc →
      to_thread_out doc = some t → get_thread (some s) tid = Except.ok t) := by
  refine ⟨rfl, fun hdec => ⟨by simp [get_thread, hdec], rfl⟩,
          fun o hdec hf => by simp [get_thread, hdec, hf],
          fun o doc t hdec hf ht => by simp [get_thread, hdec, hf, ht]⟩

/-- Witness for C6 amended: the fixture thread is returned in output shape, and
a malformed identifier fails with the 500-mapped InvalidIdentifier. -/
theorem get_thread_error_mapping_witness :
    get_thread (some dbA) tidA =
      Except.ok ⟨tidA, "Intro", "alice", "hi", some "general", none⟩ ∧
    get_thread (some dbA) "zz" = Except.error HandlerError.invalidId :=
  ⟨(get_thread_error_mapping dbA tidA).2.2.2 oidA threadDocA
      ⟨tidA, "Intro", "alice", "hi", some "general", none⟩
      (by decide) (by decide) (by decide),
   ((get_thread_error_mapping dbA "zz").2.1 (by decide)).1⟩

/-- C8: on any stored document of the shape creation persists, to_thread_out
and to_post_out succeed, rename _id to the string-encoded id field, normalize a
Post's stored thread_id (string-stored or native-stored) to its string form,
copy the remaining fields verbatim, and default category and tags to none when
stored null or missing. -/
theorem mappers_on_validated_docs (fresh o2 : OID) (t : ThreadCreate)
    (p : PostCreate) (tid a c : String) :
    to_thread_out (("_id", Value.oid fresh) :: t.model_dump) =
      some ⟨encodeId fresh, t.title, t.author, t.content, t.category, t.tags⟩ ∧
    to_thread_out [("_id", Value.oid fresh), ("title", Value.str t.title),
        ("author", Value.str t.author), ("content", Value.str t.content)] =
      some ⟨encodeId fresh, t.title, t.author, t.content, none, none⟩ ∧
    to_post_out (("_id", Value.oid fresh) ::
        setv p.model_dump "thread_id" (Value.str tid)) =
      some ⟨encodeId fresh, tid, p.author, p.content⟩ ∧
    to_post_out [("_id", Value.oid fresh), ("thread_id", Value.oid o2),
        ("author", Value.str a), ("content", Value.str c)] =
      some ⟨encodeId fresh, encodeId o2, a, c⟩ := by
  obtain ⟨tt, ta, tc, cat, tg⟩ := t
  refine ⟨?_, rfl, rfl, rfl⟩
  cases cat <;> cases tg <;> rfl
